import Mathlib

/-!
Shallow embedding of `backend/app/routers/projects.py`: the project record
lifecycle of the GSB infrastructure-tracking service. The document store is
modelled as an association list from BSON object ids to project documents;
each HTTP handler becomes a pure function from its inputs and the store to
a result and the updated store. External collaborators (the object-storage
upload, the wall clock, the id generated by the store on insert) enter as
explicit parameters.
-/

namespace GSB

/-- A timezone-aware datetime: an absolute instant together with the UTC
offset, in minutes, it is rendered with. `datetime.now(IST)` stamps the
current instant with offset +5:30, i.e. 330 minutes. -/
structure DateTime where
  instant : Int
  offsetMinutes : Int
deriving DecidableEq, Repr

/-- The fixed +5:30 offset `IST = timezone(timedelta(hours=5, minutes=30))`. -/
def istOffsetMinutes : Int := 330

/-- `datetime.now(IST)`: the given instant rendered in the +5:30 offset. -/
def nowIST (instant : Int) : DateTime :=
  { instant := instant, offsetMinutes := istOffsetMinutes }

/-- A BSON object id in its canonical form: 12 bytes, equivalently a
24-character lowercase hexadecimal string, which is what `str(oid)`
produces. -/
structure ObjectId where
  hex : String
deriving DecidableEq, Repr

/-- Whether a character is a hexadecimal digit (either case), as accepted by
`bytes.fromhex` on a whitespace-free string. -/
def isHexChar (c : Char) : Bool :=
  c.isDigit || ('a' ≤ c && c ≤ 'f') || ('A' ≤ c && c ≤ 'F')

/-- `ObjectId(s)` for a string argument: succeeds exactly on 24-character
hexadecimal strings (either case, per `bytes.fromhex`), and the resulting
id's canonical string form is lowercase. Any other string raises
`InvalidId`, modelled as `none`. -/
def parseObjectId (s : String) : Option ObjectId :=
  if (s.data.length == 24) && s.data.all isHexChar then
    some ⟨String.mk (s.data.map Char.toLower)⟩
  else none

/-- `str(oid)`: the canonical lowercase-hex rendering of an object id. -/
def objectIdStr (o : ObjectId) : String := o.hex

/-- `GeoPoint` schema: latitude and longitude. The Python floats are never
computed with, only stored and echoed, so an exact numeric type stands in
for them. -/
structure GeoPoint where
  lat : Rat
  lng : Rat
deriving DecidableEq, Repr

/-- One element of a project's `images` array, as built by
`upload_project_image`. -/
structure ImageRecord where
  url : String
  description : String
  uploaded_at : DateTime
  uploaded_by : String
deriving DecidableEq, Repr

/-- A stored project document (everything except the `_id` key, which the
store keeps alongside it). Field names follow the `ProjectCreate` schema
plus the two server-assigned fields `created_at` and `images`. -/
structure ProjectDoc where
  project_name : String
  description : String
  category : String
  village_name : String
  location : String
  start_point : GeoPoint
  end_point : GeoPoint
  contractor_name : String
  contractor_id : String
  allocated_budget : Rat
  approved_by : String
  start_date : DateTime
  due_date : DateTime
  status : String
  milestones : List String
  created_at : DateTime
  images : List ImageRecord
deriving DecidableEq, Repr

/-- The `projects` collection: documents keyed by their `_id`, in insertion
order. -/
abbrev Store := List (ObjectId × ProjectDoc)

/-- The `ProjectCreate` request schema, after validation: every field
present, `status` and `milestones` already holding their defaults when the
caller omitted them. -/
structure ProjectCreate where
  project_name : String
  description : String
  category : String
  village_name : String
  location : String
  start_point : GeoPoint
  end_point : GeoPoint
  contractor_name : String
  contractor_id : String
  allocated_budget : Rat
  approved_by : String
  start_date : DateTime
  due_date : DateTime
  status : String
  milestones : List String
deriving DecidableEq, Repr

/-- A creation request as it arrives: `status` and `milestones` may be
absent from the JSON body. -/
structure ProjectCreateRequest where
  project_name : String
  description : String
  category : String
  village_name : String
  location : String
  start_point : GeoPoint
  end_point : GeoPoint
  contractor_name : String
  contractor_id : String
  allocated_budget : Rat
  approved_by : String
  start_date : DateTime
  due_date : DateTime
  status : Option String
  milestones : Option (List String)
deriving DecidableEq, Repr

/-- Pydantic validation of `ProjectCreate`: absent `status` defaults to
"Proposed", absent `milestones` defaults to the seed list
`["Project Initiated"]`. -/
def validateCreate (r : ProjectCreateRequest) : ProjectCreate :=
  { project_name := r.project_name
    description := r.description
    category := r.category
    village_name := r.village_name
    location := r.location
    start_point := r.start_point
    end_point := r.end_point
    contractor_name := r.contractor_name
    contractor_id := r.contractor_id
    allocated_budget := r.allocated_budget
    approved_by := r.approved_by
    start_date := r.start_date
    due_date := r.due_date
    status := r.status.getD "Proposed"
    milestones := r.milestones.getD ["Project Initiated"] }

instance {ε α : Type} [DecidableEq ε] [DecidableEq α] : DecidableEq (Except ε α) :=
  fun x y =>
  match x, y with
  | .error a, .error b =>
    if h : a = b then isTrue (congrArg Except.error h)
    else isFalse (fun hh => h (by injection hh))
  | .error _, .ok _ => isFalse (fun hh => Except.noConfusion hh)
  | .ok _, .error _ => isFalse (fun hh => Except.noConfusion hh)
  | .ok a, .ok b =>
    if h : a = b then isTrue (congrArg Except.ok h)
    else isFalse (fun hh => h (by injection hh))

/-- The error responses the handlers raise via `HTTPException`, plus the
propagated object-storage failure (uncaught, surfacing as a server error). -/
inductive ApiError where
  | invalidId
  | notFound
  | unauthorized
  | uploadFailed (msg : String)
deriving DecidableEq, Repr

/-- HTTP status code of each error. -/
def ApiError.code : ApiError → Nat
  | .invalidId => 400
  | .notFound => 404
  | .unauthorized => 403
  | .uploadFailed _ => 500

/-- `db.projects.find_one(\x7b"_id": oid\x7d)`: the first (in a well-formed
store, the only) document stored under the id. -/
def dbFindOne (store : Store) (oid : ObjectId) : Option ProjectDoc :=
  (List.find? (fun e => e.1 == oid) store).map (·.2)

/-- `db.projects.update_one(\x7b"_id": oid\x7d, q)`: apply the update `f`
to the first document stored under the id, if any; also yield the
`matched_count` (0 or 1). The whole update is one atomic store operation. -/
def dbUpdateOne (store : Store) (oid : ObjectId) (f : ProjectDoc → ProjectDoc) :
    Store × Nat :=
  match store with
  | [] => ([], 0)
  | e :: rest =>
    if e.1 == oid then ((e.1, f e.2) :: rest, 1)
    else
      let r := dbUpdateOne rest oid f
      (e :: r.1, r.2)

/-- Response body of `create_project`. -/
structure CreateResponse where
  message : String
  project_id : String
deriving DecidableEq, Repr

/-- `create_project`: build the document from the validated payload, stamp
`created_at` with the current instant in the +5:30 offset, initialize
`images` to the empty list, insert under the store-generated id `newId`,
and answer with `str(result.inserted_id)`. The `official_id` query
parameter is accepted and unused. -/
def create_project (project : ProjectCreate) (official_id : Option String)
    (now : Int) (newId : ObjectId) (store : Store) : Store × CreateResponse :=
  let new_project : ProjectDoc :=
    { project_name := project.project_name
      description := project.description
      category := project.category
      village_name := project.village_name
      location := project.location
      start_point := project.start_point
      end_point := project.end_point
      contractor_name := project.contractor_name
      contractor_id := project.contractor_id
      allocated_budget := project.allocated_budget
      approved_by := project.approved_by
      start_date := project.start_date
      due_date := project.due_date
      status := project.status
      milestones := project.milestones
      created_at := nowIST now
      images := [] }
  (store ++ [(newId, new_project)],
   { message := "Project created successfully", project_id := objectIdStr newId })

/-- A document as shaped for a response: `p["id"] = str(p["_id"]); del
p["_id"]` — the raw object id is removed and replaced by its plain string
form. -/
structure ShapedProject where
  id : String
  body : ProjectDoc
deriving DecidableEq, Repr

/-- Shape one store entry for a response. -/
def shapeProject (e : ObjectId × ProjectDoc) : ShapedProject :=
  { id := objectIdStr e.1, body := e.2 }

/-- The Mongo query built by `get_projects`: each filter key is added only
when the query parameter is truthy (present and non-empty, per Python
truthiness of strings). -/
def matchesQuery (village_name contractor_id : Option String)
    (d : ProjectDoc) : Bool :=
  (match village_name with
   | some v => if v == "" then true else d.village_name == v
   | none => true) &&
  (match contractor_id with
   | some c => if c == "" then true else d.contractor_id == c
   | none => true)

/-- `.sort("created_at", -1)`: newest first. -/
def createdDesc (a b : ObjectId × ProjectDoc) : Prop :=
  b.2.created_at.instant ≤ a.2.created_at.instant

instance : DecidableRel createdDesc := fun a b =>
  inferInstanceAs (Decidable (b.2.created_at.instant ≤ a.2.created_at.instant))

instance : IsTotal (ObjectId × ProjectDoc) createdDesc :=
  ⟨fun a b => (le_total b.2.created_at.instant a.2.created_at.instant).elim Or.inl Or.inr⟩

instance : IsTrans (ObjectId × ProjectDoc) createdDesc :=
  ⟨fun _ _ _ h h' => le_trans h' h⟩

/-- `get_projects`: filter by the truthy query parameters, sort by
`created_at` descending, return at most 100 documents
(`.to_list(100)`), each shaped with `id` as a plain string. -/
def get_projects (village_name contractor_id : Option String)
    (store : Store) : List ShapedProject :=
  let projects :=
    (List.insertionSort createdDesc
      (store.filter (fun e => matchesQuery village_name contractor_id e.2))).take 100
  projects.map shapeProject

/-- `get_project_details`: parse the path id (400 on failure), look the
document up (404 when absent), and return it shaped. -/
def get_project_details (project_id : String) (store : Store) :
    Except ApiError ShapedProject :=
  match parseObjectId project_id with
  | none => .error .invalidId
  | some oid =>
    match dbFindOne store oid with
    | none => .error .notFound
    | some project => .ok (shapeProject (oid, project))

/-- Response body of `update_project_status`. -/
structure StatusUpdateResponse where
  message : String
  new_status : String
  milestone_added : Option String
deriving DecidableEq, Repr

/-- The update document built by `update_project_status`: always
`$set` the status; additionally `$push` the milestone exactly when
`new_milestone` is truthy (present and non-empty). Both changes ride in the
one `update_one` call. -/
def statusUpdateDoc (stat : String) (new_milestone : Option String)
    (d : ProjectDoc) : ProjectDoc :=
  let d' := { d with status := stat }
  match new_milestone with
  | some m => if m == "" then d' else { d' with milestones := d'.milestones ++ [m] }
  | none => d'

/-- `update_project_status`: parse the path id (400 on failure), issue the
single combined update, then raise 404 when it matched no document. The
`official_id` query parameter is accepted and unused. The response echoes
`new_milestone` as `milestone_added` whether or not a push happened. -/
def update_project_status (project_id : String) (stat : String)
    (new_milestone official_id : Option String) (store : Store) :
    Except ApiError StatusUpdateResponse × Store :=
  match parseObjectId project_id with
  | none => (.error .invalidId, store)
  | some oid =>
    let r := dbUpdateOne store oid (statusUpdateDoc stat new_milestone)
    if r.2 == 0 then (.error .notFound, r.1)
    else
      (.ok { message := "Project updated", new_status := stat,
             milestone_added := new_milestone },
       r.1)

/-- Response body of `upload_project_image`. -/
structure UploadResponse where
  message : String
  url : String
deriving DecidableEq, Repr

/-- `upload_project_image`: parse the path id (400), fetch the document
(404), compare its stored `contractor_id` with the caller-asserted one
(403 on mismatch), then hand the file to the object store —
`upload_result` is that external call's outcome, `Except.error` when it
raises — and only after a successful upload push the image record, stamped
with the current instant in the +5:30 offset. -/
def upload_project_image (project_id : String) (contractor_id : String)
    (upload_result : Except String String) (description : String)
    (now : Int) (store : Store) : Except ApiError UploadResponse × Store :=
  match parseObjectId project_id with
  | none => (.error .invalidId, store)
  | some oid =>
    match dbFindOne store oid with
    | none => (.error .notFound, store)
    | some project =>
      if project.contractor_id != contractor_id then (.error .unauthorized, store)
      else
        match upload_result with
        | .error e => (.error (.uploadFailed e), store)
        | .ok image_url =>
          let image_record : ImageRecord :=
            { url := image_url, description := description,
              uploaded_at := nowIST now, uploaded_by := contractor_id }
          let r := dbUpdateOne store oid
            (fun d => { d with images := d.images ++ [image_record] })
          (.ok { message := "Image uploaded successfully", url := image_url }, r.1)

/-! ## Store lemmas -/

theorem dbFindOne_cons (e : ObjectId × ProjectDoc) (rest : Store) (oid : ObjectId) :
    dbFindOne (e :: rest) oid = if e.1 = oid then some e.2 else dbFindOne rest oid := by
  by_cases h : e.1 = oid <;> simp [dbFindOne, List.find?_cons, h]

theorem dbFindOne_append_of_none (store : Store) (e : ObjectId × ProjectDoc)
    (h : dbFindOne store e.1 = none) :
    dbFindOne (store ++ [e]) e.1 = some e.2 := by
  induction store with
  | nil => simp [dbFindOne_cons, dbFindOne]
  | cons a rest ih =>
    rw [dbFindOne_cons] at h
    by_cases ha : a.1 = e.1
    · simp [ha] at h
    · rw [List.cons_append, dbFindOne_cons, if_neg ha]
      exact ih (by simpa [ha] using h)

theorem dbUpdateOne_of_none (store : Store) (oid : ObjectId) (f : ProjectDoc → ProjectDoc)
    (h : dbFindOne store oid = none) :
    dbUpdateOne store oid f = (store, 0) := by
  induction store with
  | nil => rfl
  | cons e rest ih =>
    rw [dbFindOne_cons] at h
    by_cases he : e.1 = oid
    · simp [he] at h
    · rw [dbUpdateOne, if_neg (by simpa using he), ih (by simpa [he] using h)]

theorem dbUpdateOne_snd_of_some (store : Store) (oid : ObjectId)
    (f : ProjectDoc → ProjectDoc) (d : ProjectDoc) (h : dbFindOne store oid = some d) :
    (dbUpdateOne store oid f).2 = 1 := by
  induction store with
  | nil => simp [dbFindOne] at h
  | cons e rest ih =>
    rw [dbFindOne_cons] at h
    by_cases he : e.1 = oid
    · rw [dbUpdateOne, if_pos (by simpa using he)]
    · rw [dbUpdateOne, if_neg (by simpa using he)]
      exact ih (by simpa [he] using h)

theorem dbFindOne_dbUpdateOne_self (store : Store) (oid : ObjectId)
    (f : ProjectDoc → ProjectDoc) :
    dbFindOne (dbUpdateOne store oid f).1 oid = (dbFindOne store oid).map f := by
  induction store with
  | nil => rfl
  | cons e rest ih =>
    by_cases he : e.1 = oid
    · rw [dbUpdateOne, if_pos (by simpa using he), dbFindOne_cons, dbFindOne_cons,
        if_pos he, if_pos he]
      rfl
    · rw [dbUpdateOne, if_neg (by simpa using he)]
      rw [dbFindOne_cons, if_neg he, dbFindOne_cons, if_neg he]
      exact ih

theorem dbFindOne_dbUpdateOne_ne (store : Store) (oid k : ObjectId)
    (f : ProjectDoc → ProjectDoc) (hk : k ≠ oid) :
    dbFindOne (dbUpdateOne store oid f).1 k = dbFindOne store k := by
  induction store with
  | nil => rfl
  | cons e rest ih =>
    by_cases he : e.1 = oid
    · rw [dbUpdateOne, if_pos (by simpa using he), dbFindOne_cons, dbFindOne_cons]
      have : ¬ e.1 = k := fun hh => hk (by rw [← hh, he])
      rw [if_neg this, if_neg this]
    · rw [dbUpdateOne, if_neg (by simpa using he), dbFindOne_cons, dbFindOne_cons]
      by_cases hek : e.1 = k
      · rw [if_pos hek, if_pos hek]
      · rw [if_neg hek, if_neg hek]
        exact ih

/-! ## Sample data for witnesses and counterexamples -/

/-- A canonical object id. -/
def oidA : ObjectId := ⟨"0123456789abcdef01234567"⟩

/-- A second canonical object id. -/
def oidB : ObjectId := ⟨"aaaabbbbccccdddd00001111"⟩

/-- A sample geographic point. -/
def samplePoint : GeoPoint := { lat := 1, lng := 2 }

/-- A sample caller-supplied datetime. -/
def sampleDate (n : Int) : DateTime := { instant := n, offsetMinutes := 330 }

/-- A sample stored project document owned by contractor "C1". -/
def docA : ProjectDoc :=
  { project_name := "Road A", description := "d", category := "road",
    village_name := "V1", location := "L",
    start_point := samplePoint, end_point := samplePoint,
    contractor_name := "CN", contractor_id := "C1",
    allocated_budget := 10000, approved_by := "O1",
    start_date := sampleDate 0, due_date := sampleDate 10,
    status := "Proposed", milestones := ["Project Initiated"],
    created_at := sampleDate 5, images := [] }

/-- A sample creation request leaving `status` and `milestones` to their
defaults. -/
def reqA : ProjectCreateRequest :=
  { project_name := "Road A", description := "d", category := "road",
    village_name := "V1", location := "L",
    start_point := samplePoint, end_point := samplePoint,
    contractor_name := "CN", contractor_id := "C1",
    allocated_budget := 10000, approved_by := "O1",
    start_date := sampleDate 0, due_date := sampleDate 10,
    status := none, milestones := none }

/-! ## Handler unfolding lemmas -/

theorem upload_image_ok_eq (project_id contractor_id description url : String)
    (now : Int) (store : Store) (oid : ObjectId) (project : ProjectDoc)
    (hp : parseObjectId project_id = some oid)
    (hf : dbFindOne store oid = some project)
    (hc : project.contractor_id = contractor_id) :
    upload_project_image project_id contractor_id (.ok url) description now store
      = (.ok { message := "Image uploaded successfully", url := url },
         (dbUpdateOne store oid (fun d => { d with images := d.images ++
            [{ url := url, description := description, uploaded_at := nowIST now,
               uploaded_by := contractor_id }] })).1) := by
  simp [upload_project_image, hp, hf, hc]

theorem upload_image_err_eq (project_id contractor_id description e : String)
    (now : Int) (store : Store) (oid : ObjectId) (project : ProjectDoc)
    (hp : parseObjectId project_id = some oid)
    (hf : dbFindOne store oid = some project)
    (hc : project.contractor_id = contractor_id) :
    upload_project_image project_id contractor_id (.error e) description now store
      = (.error (.uploadFailed e), store) := by
  simp [upload_project_image, hp, hf, hc]

theorem update_status_found_eq (project_id stat : String)
    (new_milestone official_id : Option String) (store : Store)
    (oid : ObjectId) (d : ProjectDoc)
    (hp : parseObjectId project_id = some oid)
    (hf : dbFindOne store oid = some d) :
    update_project_status project_id stat new_milestone official_id store
      = (.ok { message := "Project updated", new_status := stat,
               milestone_added := new_milestone },
         (dbUpdateOne store oid (statusUpdateDoc stat new_milestone)).1) := by
  have h1 : (dbUpdateOne store oid (statusUpdateDoc stat new_milestone)).2 = 1 :=
    dbUpdateOne_snd_of_some store oid _ d hf
  simp [update_project_status, hp, h1]

theorem statusUpdateDoc_eq (stat : String) (nm : Option String) (d : ProjectDoc) :
    statusUpdateDoc stat nm d
      = { d with
          status := stat
          milestones := d.milestones ++ nm.elim [] (fun m => if m = "" then [] else [m]) } := by
  match nm with
  | none => simp [statusUpdateDoc]
  | some m =>
    by_cases hm : m = "" <;> simp [statusUpdateDoc, hm]

/-! ## Claim theorems -/

/-- C1: in `upload_project_image` the checks run in order, each a hard
precondition for the next: an identifier that does not parse fails with
`InvalidIdentifier` (400); a parsed identifier matching no record fails
with `NotFound` (404); a matched record whose stored `contractor_id`
differs from the caller-asserted one fails with `Unauthorized` (403). In
each case the store — in particular the record's `images` sequence — is
returned unchanged. -/
theorem attachImage_error_precedence (project_id contractor_id : String)
    (upload_result : Except String String) (description : String) (now : Int)
    (store : Store) :
    (parseObjectId project_id = none →
      upload_project_image project_id contractor_id upload_result description now store
        = (.error .invalidId, store) ∧ ApiError.invalidId.code = 400) ∧
    (∀ oid, parseObjectId project_id = some oid → dbFindOne store oid = none →
      upload_project_image project_id contractor_id upload_result description now store
        = (.error .notFound, store) ∧ ApiError.notFound.code = 404) ∧
    (∀ oid project, parseObjectId project_id = some oid →
      dbFindOne store oid = some project →
      project.contractor_id ≠ contractor_id →
      upload_project_image project_id contractor_id upload_result description now store
        = (.error .unauthorized, store) ∧ ApiError.unauthorized.code = 403) := by
  refine ⟨fun hp => ?_, fun oid hp hf => ?_, fun oid project hp hf hc => ?_⟩
  · simp [upload_project_image, hp, ApiError.code]
  · simp [upload_project_image, hp, hf, ApiError.code]
  · simp [upload_project_image, hp, hf, hc, ApiError.code]

/-- C1 witness: on a one-record store owned by contractor "C1", an upload
asserted by "C2" is rejected as unauthorized with the store unchanged. -/
theorem attachImage_error_precedence_w :
    upload_project_image "0123456789abcdef01234567" "C2" (.ok "u") "D" 0 [(oidA, docA)]
      = (.error .unauthorized, [(oidA, docA)]) ∧ ApiError.unauthorized.code = 403 :=
  (attachImage_error_precedence "0123456789abcdef01234567" "C2" (.ok "u") "D" 0
    [(oidA, docA)]).2.2 oidA docA (by decide) (by decide) (by decide)

/-- C3: `update_project_status` on an identifier that parses but matches no
record fails with `NotFound` and returns the store exactly as it was —
every stored record is unchanged. -/
theorem updateStatus_notFound_no_mutation (project_id stat : String)
    (new_milestone official_id : Option String) (store : Store) (oid : ObjectId)
    (hp : parseObjectId project_id = some oid)
    (hf : dbFindOne store oid = none) :
    update_project_status project_id stat new_milestone official_id store
      = (.error .notFound, store) := by
  simp [update_project_status, hp, dbUpdateOne_of_none store oid _ hf]

/-- C3 witness: updating a status under the absent id `oidB` on a one-record
store fails with 404 and leaves the store intact. -/
theorem updateStatus_notFound_no_mutation_w :
    update_project_status "aaaabbbbccccdddd00001111" "Completed" (some "m") none
        [(oidA, docA)]
      = (.error .notFound, [(oidA, docA)]) :=
  updateStatus_notFound_no_mutation "aaaabbbbccccdddd00001111" "Completed" (some "m")
    none [(oidA, docA)] oidB (by decide) (by decide)

/-- C2: once the `upload_project_image` preconditions hold, a failing
external upload propagates its error to the caller with the store — hence
the project record — exactly as before the call, and a successful upload
appends the image record (url, description, uploader identity = asserted
contractor identifier, timestamp in the +5:30 offset) to the record's
`images` sequence. -/
theorem attachImage_append_after_upload (project_id contractor_id description : String)
    (now : Int) (store : Store) (oid : ObjectId) (project : ProjectDoc)
    (hp : parseObjectId project_id = some oid)
    (hf : dbFindOne store oid = some project)
    (hc : project.contractor_id = contractor_id) :
    (∀ e, upload_project_image project_id contractor_id (.error e) description now store
        = (.error (.uploadFailed e), store)) ∧
    (∀ url,
      (upload_project_image project_id contractor_id (.ok url) description now store).1
        = .ok { message := "Image uploaded successfully", url := url } ∧
      dbFindOne
          (upload_project_image project_id contractor_id (.ok url) description now store).2
          oid
        = some { project with images := project.images ++
            [{ url := url
               description := description
               uploaded_at := { instant := now, offsetMinutes := 330 }
               uploaded_by := contractor_id }] }) := by
  refine ⟨fun e => upload_image_err_eq _ _ _ _ _ _ _ _ hp hf hc, fun url => ?_⟩
  rw [upload_image_ok_eq project_id contractor_id description url now store oid project
    hp hf hc]
  refine ⟨rfl, ?_⟩
  rw [dbFindOne_dbUpdateOne_self, hf]
  rfl

/-- C2 witness: on the sample store, a failed upload leaves the store
untouched and a successful one appends the stamped image record. -/
theorem attachImage_append_after_upload_w :
    (∀ e, upload_project_image "0123456789abcdef01234567" "C1" (.error e) "D" 7
        [(oidA, docA)] = (.error (.uploadFailed e), [(oidA, docA)])) ∧
    (∀ url,
      (upload_project_image "0123456789abcdef01234567" "C1" (.ok url) "D" 7
          [(oidA, docA)]).1
        = .ok { message := "Image uploaded successfully", url := url } ∧
      dbFindOne
          (upload_project_image "0123456789abcdef01234567" "C1" (.ok url) "D" 7
            [(oidA, docA)]).2 oidA
        = some { docA with images := docA.images ++
            [{ url := url
               description := "D"
               uploaded_at := { instant := 7, offsetMinutes := 330 }
               uploaded_by := "C1" }] }) :=
  attachImage_append_after_upload "0123456789abcdef01234567" "C1" "D" 7
    [(oidA, docA)] oidA docA (by decide) (by decide) (by decide)

/-- C4 counterexample: supplying the empty string as `new_milestone` is a
supplied milestone value, the call succeeds and even echoes it in
`milestone_added`, yet nothing is appended to the stored `milestones`
sequence — the append is guarded by string truthiness, not by presence. -/
theorem updateStatus_milestone_supplied_cex :
    (update_project_status "0123456789abcdef01234567" "In Progress" (some "") none
        [(oidA, docA)]).1
      = .ok { message := "Project updated", new_status := "In Progress",
              milestone_added := some "" } ∧
    (dbFindOne (update_project_status "0123456789abcdef01234567" "In Progress" (some "")
        none [(oidA, docA)]).2 oidA).map ProjectDoc.milestones
      = some ["Project Initiated"] := by decide

/-- C4 (amended): on an existing record, `update_project_status` sets
`status` to the given string and, exactly when a supplied milestone value
is non-empty, appends it to `milestones`, both inside the one combined
`update_one` call; every other field of the record and every other stored
record is unchanged. -/
theorem updateStatus_existing_effect (project_id stat : String)
    (new_milestone official_id : Option String) (store : Store)
    (oid : ObjectId) (d : ProjectDoc)
    (hp : parseObjectId project_id = some oid)
    (hf : dbFindOne store oid = some d) :
    (update_project_status project_id stat new_milestone official_id store).1
      = .ok { message := "Project updated", new_status := stat,
              milestone_added := new_milestone } ∧
    dbFindOne (update_project_status project_id stat new_milestone official_id store).2 oid
      = some { d with
               status := stat
               milestones := d.milestones ++
                 new_milestone.elim [] (fun m => if m = "" then [] else [m]) } ∧
    ∀ k, k ≠ oid →
      dbFindOne (update_project_status project_id stat new_milestone official_id store).2 k
        = dbFindOne store k := by
  rw [update_status_found_eq project_id stat new_milestone official_id store oid d hp hf]
  refine ⟨rfl, ?_, fun k hk => dbFindOne_dbUpdateOne_ne store oid k _ hk⟩
  rw [dbFindOne_dbUpdateOne_self, hf]
  simp [statusUpdateDoc_eq]

/-- C4 witness: a status update with the non-empty milestone "Paved" sets
the status and appends the milestone on the sample store. -/
theorem updateStatus_existing_effect_w :
    (update_project_status "0123456789abcdef01234567" "In Progress" (some "Paved") none
        [(oidA, docA)]).1
      = .ok { message := "Project updated", new_status := "In Progress",
              milestone_added := some "Paved" } ∧
    dbFindOne (update_project_status "0123456789abcdef01234567" "In Progress"
        (some "Paved") none [(oidA, docA)]).2 oidA
      = some { docA with
               status := "In Progress"
               milestones := docA.milestones ++
                 (some "Paved").elim [] (fun m => if m = "" then [] else [m]) } ∧
    ∀ k, k ≠ oidA →
      dbFindOne (update_project_status "0123456789abcdef01234567" "In Progress"
          (some "Paved") none [(oidA, docA)]).2 k
        = dbFindOne [(oidA, docA)] k :=
  updateStatus_existing_effect "0123456789abcdef01234567" "In Progress" (some "Paved")
    none [(oidA, docA)] oidA docA (by decide) (by decide)

/-- C9: two sequential successful `upload_project_image` calls append their
two image records in call order at the end of the record's `images`
sequence — the first is preserved, previously present images are unchanged
— and every other stored record is untouched. -/
theorem attachImage_two_appends (project_id contractor_id d1 d2 u1 u2 : String)
    (n1 n2 : Int) (store : Store) (oid : ObjectId) (project : ProjectDoc)
    (hp : parseObjectId project_id = some oid)
    (hf : dbFindOne store oid = some project)
    (hc : project.contractor_id = contractor_id) :
    (upload_project_image project_id contractor_id (.ok u1) d1 n1 store).1
      = .ok { message := "Image uploaded successfully", url := u1 } ∧
    (upload_project_image project_id contractor_id (.ok u2) d2 n2
        (upload_project_image project_id contractor_id (.ok u1) d1 n1 store).2).1
      = .ok { message := "Image uploaded successfully", url := u2 } ∧
    dbFindOne
        (upload_project_image project_id contractor_id (.ok u2) d2 n2
          (upload_project_image project_id contractor_id (.ok u1) d1 n1 store).2).2
        oid
      = some { project with images := project.images ++
          [{ url := u1, description := d1, uploaded_at := nowIST n1,
             uploaded_by := contractor_id },
           { url := u2, description := d2, uploaded_at := nowIST n2,
             uploaded_by := contractor_id }] } ∧
    ∀ k, k ≠ oid →
      dbFindOne
          (upload_project_image project_id contractor_id (.ok u2) d2 n2
            (upload_project_image project_id contractor_id (.ok u1) d1 n1 store).2).2
          k
        = dbFindOne store k := by
  have e1 := upload_image_ok_eq project_id contractor_id d1 u1 n1 store oid project
    hp hf hc
  have hf1 : dbFindOne (upload_project_image project_id contractor_id (.ok u1) d1 n1
      store).2 oid
      = some { project with images := project.images ++
          [{ url := u1, description := d1, uploaded_at := nowIST n1,
             uploaded_by := contractor_id }] } := by
    rw [e1, dbFindOne_dbUpdateOne_self, hf]
    rfl
  have e2 := upload_image_ok_eq project_id contractor_id d2 u2 n2
    (upload_project_image project_id contractor_id (.ok u1) d1 n1 store).2 oid
    _ hp hf1 hc
  refine ⟨by rw [e1], by rw [e2], ?_, fun k hk => ?_⟩
  · rw [e2, dbFindOne_dbUpdateOne_self, hf1]
    simp
  · rw [e2, dbFindOne_dbUpdateOne_ne _ _ _ _ hk, e1,
      dbFindOne_dbUpdateOne_ne _ _ _ _ hk]

/-- C9 witness: two concrete uploads by the assigned contractor land both
image records in order on the sample store. -/
theorem attachImage_two_appends_w :
    (upload_project_image "0123456789abcdef01234567" "C1" (.ok "u1") "D1" 1
        [(oidA, docA)]).1
      = .ok { message := "Image uploaded successfully", url := "u1" } ∧
    (upload_project_image "0123456789abcdef01234567" "C1" (.ok "u2") "D2" 2
        (upload_project_image "0123456789abcdef01234567" "C1" (.ok "u1") "D1" 1
          [(oidA, docA)]).2).1
      = .ok { message := "Image uploaded successfully", url := "u2" } ∧
    dbFindOne
        (upload_project_image "0123456789abcdef01234567" "C1" (.ok "u2") "D2" 2
          (upload_project_image "0123456789abcdef01234567" "C1" (.ok "u1") "D1" 1
            [(oidA, docA)]).2).2 oidA
      = some { docA with images := docA.images ++
          [{ url := "u1", description := "D1", uploaded_at := nowIST 1,
             uploaded_by := "C1" },
           { url := "u2", description := "D2", uploaded_at := nowIST 2,
             uploaded_by := "C1" }] } ∧
    ∀ k, k ≠ oidA →
      dbFindOne
          (upload_project_image "0123456789abcdef01234567" "C1" (.ok "u2") "D2" 2
            (upload_project_image "0123456789abcdef01234567" "C1" (.ok "u1") "D1" 1
              [(oidA, docA)]).2).2 k
        = dbFindOne [(oidA, docA)] k :=
  attachImage_two_appends "0123456789abcdef01234567" "C1" "D1" "D2" "u1" "u2" 1 2
    [(oidA, docA)] oidA docA (by decide) (by decide) (by decide)

/-- C10: on an existing record, supplying the empty string as
`new_milestone` appends nothing — the stored record only gets its new
status — yet the response's `milestone_added` echoes the empty string just
as a successful append would; only an absent parameter yields
`milestone_added = none`. -/
theorem updateStatus_empty_milestone_truthiness (project_id stat : String)
    (official_id : Option String) (store : Store) (oid : ObjectId) (d : ProjectDoc)
    (hp : parseObjectId project_id = some oid)
    (hf : dbFindOne store oid = some d) :
    (update_project_status project_id stat (some "") official_id store).1
      = .ok { message := "Project updated", new_status := stat,
              milestone_added := some "" } ∧
    dbFindOne (update_project_status project_id stat (some "") official_id store).2 oid
      = some { d with status := stat } ∧
    (update_project_status project_id stat none official_id store).1
      = .ok { message := "Project updated", new_status := stat,
              milestone_added := none } := by
  rw [update_status_found_eq project_id stat (some "") official_id store oid d hp hf,
    update_status_found_eq project_id stat none official_id store oid d hp hf]
  refine ⟨rfl, ?_, rfl⟩
  rw [dbFindOne_dbUpdateOne_self, hf]
  simp [statusUpdateDoc]

/-- C10 witness: on the sample store, the empty-string milestone is echoed
in the response but not appended, and the absent parameter reports null. -/
theorem updateStatus_empty_milestone_truthiness_w :
    (update_project_status "0123456789abcdef01234567" "Done" (some "") none
        [(oidA, docA)]).1
      = .ok { message := "Project updated", new_status := "Done",
              milestone_added := some "" } ∧
    dbFindOne (update_project_status "0123456789abcdef01234567" "Done" (some "") none
        [(oidA, docA)]).2 oidA
      = some { docA with status := "Done" } ∧
    (update_project_status "0123456789abcdef01234567" "Done" none none
        [(oidA, docA)]).1
      = .ok { message := "Project updated", new_status := "Done",
              milestone_added := none } :=
  updateStatus_empty_milestone_truthiness "0123456789abcdef01234567" "Done" none
    [(oidA, docA)] oidA docA (by decide) (by decide)

theorem get_details_of_append (store : Store) (newId : ObjectId) (doc : ProjectDoc)
    (hcanon : parseObjectId newId.hex = some newId)
    (hfresh : dbFindOne store newId = none) :
    get_project_details newId.hex (store ++ [(newId, doc)])
      = .ok { id := newId.hex, body := doc } := by
  have hfind := dbFindOne_append_of_none store (newId, doc) hfresh
  simp [get_project_details, hcanon, hfind, shapeProject, objectIdStr]

/-- C5: creating a project from a valid payload and fetching it by the
returned identifier yields a record whose field values are the payload's —
`status` defaulting to "Proposed" and `milestones` to the seed
`["Project Initiated"]` when omitted — plus a server-assigned `created_at`
in the fixed +5:30 offset and an empty `images` sequence. The
store-generated id is canonical (its string form re-parses to itself) and
fresh, as Mongo guarantees. -/
theorem create_get_roundtrip (req : ProjectCreateRequest) (official_id : Option String)
    (now : Int) (newId : ObjectId) (store : Store)
    (hcanon : parseObjectId newId.hex = some newId)
    (hfresh : dbFindOne store newId = none) :
    (create_project (validateCreate req) official_id now newId store).2.project_id
      = objectIdStr newId ∧
    get_project_details
        (create_project (validateCreate req) official_id now newId store).2.project_id
        (create_project (validateCreate req) official_id now newId store).1
      = .ok { id := objectIdStr newId
              body := { project_name := req.project_name
                        description := req.description
                        category := req.category
                        village_name := req.village_name
                        location := req.location
                        start_point := req.start_point
                        end_point := req.end_point
                        contractor_name := req.contractor_name
                        contractor_id := req.contractor_id
                        allocated_budget := req.allocated_budget
                        approved_by := req.approved_by
                        start_date := req.start_date
                        due_date := req.due_date
                        status := req.status.getD "Proposed"
                        milestones := req.milestones.getD ["Project Initiated"]
                        created_at := { instant := now, offsetMinutes := 330 }
                        images := [] } } :=
  ⟨rfl,
   get_details_of_append store newId
     { project_name := req.project_name
       description := req.description
       category := req.category
       village_name := req.village_name
       location := req.location
       start_point := req.start_point
       end_point := req.end_point
       contractor_name := req.contractor_name
       contractor_id := req.contractor_id
       allocated_budget := req.allocated_budget
       approved_by := req.approved_by
       start_date := req.start_date
       due_date := req.due_date
       status := req.status.getD "Proposed"
       milestones := req.milestones.getD ["Project Initiated"]
       created_at := { instant := now, offsetMinutes := 330 }
       images := [] } hcanon hfresh⟩

/-- C5 witness: creating from the sample request under the fresh id `oidB`
on the sample store and fetching it back returns the defaulted record. -/
theorem create_get_roundtrip_w :
    (create_project (validateCreate reqA) (some "O1") 9 oidB [(oidA, docA)]).2.project_id
      = objectIdStr oidB ∧
    get_project_details
        (create_project (validateCreate reqA) (some "O1") 9 oidB [(oidA, docA)]).2.project_id
        (create_project (validateCreate reqA) (some "O1") 9 oidB [(oidA, docA)]).1
      = .ok { id := objectIdStr oidB
              body := { project_name := reqA.project_name
                        description := reqA.description
                        category := reqA.category
                        village_name := reqA.village_name
                        location := reqA.location
                        start_point := reqA.start_point
                        end_point := reqA.end_point
                        contractor_name := reqA.contractor_name
                        contractor_id := reqA.contractor_id
                        allocated_budget := reqA.allocated_budget
                        approved_by := reqA.approved_by
                        start_date := reqA.start_date
                        due_date := reqA.due_date
                        status := reqA.status.getD "Proposed"
                        milestones := reqA.milestones.getD ["Project Initiated"]
                        created_at := { instant := 9, offsetMinutes := 330 }
                        images := [] } } :=
  create_get_roundtrip reqA (some "O1") 9 oidB [(oidA, docA)] (by decide) (by decide)

theorem matchesQuery_contractor (X : String) (hX : X ≠ "") (d : ProjectDoc) :
    matchesQuery none (some X) d = (d.contractor_id == X) := by
  simp [matchesQuery, hX]

theorem matchesQuery_both (V X : String) (hV : V ≠ "") (hX : X ≠ "") (d : ProjectDoc) :
    matchesQuery (some V) (some X) d
      = (d.village_name == V && d.contractor_id == X) := by
  simp [matchesQuery, hV, hX]

theorem get_projects_perm (v c : Option String) (store : Store)
    (h : (store.filter (fun e => matchesQuery v c e.2)).length ≤ 100) :
    List.Perm (get_projects v c store)
      ((store.filter (fun e => matchesQuery v c e.2)).map shapeProject) := by
  rw [get_projects]
  have hperm := List.perm_insertionSort createdDesc
    (store.filter (fun e => matchesQuery v c e.2))
  have hlen : (List.insertionSort createdDesc
      (store.filter (fun e => matchesQuery v c e.2))).length ≤ 100 := by
    rw [hperm.length_eq]
    exact h
  rw [List.take_of_length_le hlen]
  exact hperm.map shapeProject

/-- C6 counterexample: with the empty string as the `contractor_id` filter,
the handler drops the filter (Python string truthiness) and returns every
record, so a record whose `contractor_id` is "C1" ≠ "" is returned —
refuting "exactly the records whose contractor_id equals X and no others"
for every X. -/
theorem list_contractor_filter_cex :
    ¬ ∀ p ∈ get_projects none (some "") [(oidA, docA)], p.body.contractor_id = "" := by
  decide

/-- C6 (amended): for every non-empty contractor identifier X, when at most
100 records match, listing with `contractor_id=X` returns exactly the
records whose `contractor_id` equals X and no others (as a multiset); for
non-empty `village_name` and `contractor_id` filters together, the two
combine via logical AND. -/
theorem list_contractor_filter_exact (store : Store) (X : String) (hX : X ≠ "")
    (h1 : (store.filter (fun e => e.2.contractor_id == X)).length ≤ 100) :
    List.Perm (get_projects none (some X) store)
      ((store.filter (fun e => e.2.contractor_id == X)).map shapeProject) ∧
    ∀ V, V ≠ "" →
      (store.filter
        (fun e => e.2.village_name == V && e.2.contractor_id == X)).length ≤ 100 →
      List.Perm (get_projects (some V) (some X) store)
        ((store.filter
          (fun e => e.2.village_name == V && e.2.contractor_id == X)).map
            shapeProject) := by
  constructor
  · have hq : (fun e : ObjectId × ProjectDoc => matchesQuery none (some X) e.2)
        = (fun e => e.2.contractor_id == X) :=
      funext fun e => matchesQuery_contractor X hX e.2
    have hperm := get_projects_perm none (some X) store (by rw [hq]; exact h1)
    rwa [hq] at hperm
  · intro V hV h2
    have hq : (fun e : ObjectId × ProjectDoc => matchesQuery (some V) (some X) e.2)
        = (fun e => e.2.village_name == V && e.2.contractor_id == X) :=
      funext fun e => matchesQuery_both V X hV hX e.2
    have hperm := get_projects_perm (some V) (some X) store (by rw [hq]; exact h2)
    rwa [hq] at hperm

/-- C6 witness: filtering the sample store by contractor "C1", alone and
together with village "V1", returns exactly the matching record. -/
theorem list_contractor_filter_exact_w :
    List.Perm (get_projects none (some "C1") [(oidA, docA)])
      (([(oidA, docA)].filter
        (fun e : ObjectId × ProjectDoc => e.2.contractor_id == "C1")).map
          shapeProject) ∧
    List.Perm (get_projects (some "V1") (some "C1") [(oidA, docA)])
      (([(oidA, docA)].filter
        (fun e : ObjectId × ProjectDoc =>
          e.2.village_name == "V1" && e.2.contractor_id == "C1")).map
            shapeProject) := by
  have h := list_contractor_filter_exact [(oidA, docA)] "C1" (by decide) (by decide)
  exact ⟨h.1, h.2 "V1" (by decide) (by decide)⟩

/-- C7: a listing returns at most 100 records for every store and filter,
and when an explicit filter is given the returned records are ordered by
creation time descending. -/
theorem list_bounded_sorted (village_name contractor_id : Option String)
    (store : Store) :
    (get_projects village_name contractor_id store).length ≤ 100 ∧
    (village_name ≠ none ∨ contractor_id ≠ none →
      List.Sorted (fun a b : ShapedProject =>
          b.body.created_at.instant ≤ a.body.created_at.instant)
        (get_projects village_name contractor_id store)) := by
  constructor
  · rw [get_projects]
    simp only [List.length_map, List.length_take]
    exact min_le_left _ _
  · intro hfilter
    have hs : List.Sorted createdDesc
        (List.insertionSort createdDesc
          (store.filter (fun e => matchesQuery village_name contractor_id e.2))) :=
      List.sorted_insertionSort createdDesc _
    have ht : List.Sorted createdDesc
        ((List.insertionSort createdDesc
          (store.filter (fun e => matchesQuery village_name contractor_id e.2))).take
            100) :=
      hs.sublist (List.take_sublist 100 _)
    exact List.Pairwise.map shapeProject (fun a b h => h) ht

/-- C7 witness: the contractor-filtered listing over the sample store is
within the bound and sorted newest-first. -/
theorem list_bounded_sorted_w :
    (get_projects none (some "C1") [(oidA, docA)]).length ≤ 100 ∧
    List.Sorted (fun a b : ShapedProject =>
        b.body.created_at.instant ≤ a.body.created_at.instant)
      (get_projects none (some "C1") [(oidA, docA)]) :=
  have h := list_bounded_sorted none (some "C1") [(oidA, docA)]
  ⟨h.1, h.2 (Or.inr (by decide))⟩

/-- C8 counterexample: fetching with an uppercase spelling of the
identifier finds the record — `ObjectId` accepts either case — but the
response `id` is the lowercase canonical form, not the identifier string
used to fetch. -/
theorem get_id_echo_cex :
    get_project_details "0123456789ABCDEF01234567" [(oidA, docA)]
      = .ok { id := "0123456789abcdef01234567", body := docA } ∧
    "0123456789abcdef01234567" ≠ "0123456789ABCDEF01234567" := by
  decide

/-- C8 (amended): every record returned by get or list carries `id` as a
plain string — the canonical lowercase-hex form of the stored identifier,
with the raw store identifier removed from the response. For get, `id` is
the lowercase-canonical form of the identifier used to fetch, hence equals
that identifier exactly when it is already in canonical lowercase form. -/
theorem response_id_plain_string (store : Store) (project_id : String)
    (oid : ObjectId) (doc : ProjectDoc)
    (hp : parseObjectId project_id = some oid)
    (hf : dbFindOne store oid = some doc) :
    get_project_details project_id store = .ok { id := objectIdStr oid, body := doc } ∧
    objectIdStr oid = String.mk (project_id.data.map Char.toLower) ∧
    (String.mk (project_id.data.map Char.toLower) = project_id →
      get_project_details project_id store = .ok { id := project_id, body := doc }) ∧
    (∀ v c, ∀ p ∈ get_projects v c store, ∃ e ∈ store, p = shapeProject e) := by
  have hoid : oid.hex = String.mk (project_id.data.map Char.toLower) := by
    by_cases hcond : ((project_id.data.length == 24)
        && project_id.data.all isHexChar) = true
    · rw [parseObjectId, if_pos hcond] at hp
      cases hp
      rfl
    · rw [parseObjectId, if_neg hcond] at hp
      exact absurd hp (by simp)
  have hget : get_project_details project_id store
      = .ok { id := objectIdStr oid, body := doc } := by
    simp [get_project_details, hp, hf, shapeProject, objectIdStr]
  refine ⟨hget, hoid, fun hcanon => ?_, fun v c p hmem => ?_⟩
  · rw [hget, objectIdStr, hoid, hcanon]
  · rw [get_projects] at hmem
    obtain ⟨e, he, rfl⟩ := List.mem_map.mp hmem
    have h1 : e ∈ List.insertionSort createdDesc
        (store.filter (fun e => matchesQuery v c e.2)) :=
      List.take_subset 100 _ he
    have h2 : e ∈ store.filter (fun e => matchesQuery v c e.2) :=
      (List.perm_insertionSort createdDesc _).subset h1
    exact ⟨e, List.filter_subset' store h2, rfl⟩

/-- C8 witness: fetching the sample record by its canonical identifier
echoes that identifier back as the response `id`. -/
theorem response_id_plain_string_w :
    get_project_details "0123456789abcdef01234567" [(oidA, docA)]
      = .ok { id := objectIdStr oidA, body := docA } ∧
    objectIdStr oidA = String.mk ("0123456789abcdef01234567".data.map Char.toLower) ∧
    (String.mk ("0123456789abcdef01234567".data.map Char.toLower)
        = "0123456789abcdef01234567" →
      get_project_details "0123456789abcdef01234567" [(oidA, docA)]
        = .ok { id := "0123456789abcdef01234567", body := docA }) ∧
    (∀ v c, ∀ p ∈ get_projects v c [(oidA, docA)],
      ∃ e ∈ [(oidA, docA)], p = shapeProject e) :=
  response_id_plain_string [(oidA, docA)] "0123456789abcdef01234567" oidA docA
    (by decide) (by decide)

end GSB
